import Mathlib

/-!
Shallow embedding of src/main.py (League of Legends black-bars script).

The script is a fixed-interval polling loop over two module-level globals,
black_window_hwnd (an optional native window handle) and black_bars_active
(a boolean).  Each tick it samples the foreground window and either
activates black-bars mode (create/show an overlay window behind the game
window, hide the taskbar) or deactivates it (hide the overlay, show the
taskbar).  Cleanup restores the taskbar and destroys the overlay.

Modelling conventions:
 * Window handles are natural numbers; the overlay handle is allocated from
   a counter nextHwnd starting at 1 (the Win32 API never hands out 0 for a
   successfully created window; CreateWindowEx raises on failure in pywin32).
 * The observable desktop state (the overlay native window, taskbar and
   Start-button visibility, input focus) is carried in the same record as
   the program globals, giving a single-step state-transition function.
 * Results of external queries that the code reads each tick
   (foreground hwnd, its title, its minimized flag, and the monitor-rect
   lookup used inside activate_black_bars) are the per-tick input.
 * Whether the taskbar / Start button can be located by FindWindow is a
   fixed environment flag (taskbarPresent / startPresent).
 * print statements are modelled by prepending to a log field; the log is
   not part of the observable program/desktop state.
 * Python truthiness of black_window_hwnd (None and 0 are falsy) is
   modelled exactly by pyTruthyHwnd.
 * createCount is a ghost counter of calls to create_black_window, and
   lastTarget is a ghost copy of the league_hwnd of the most recent
   successful activation; neither influences control flow.
-/

/-- A monitor rectangle (left, top, right, bottom), as returned by
get_monitor_rect in src/main.py. -/
structure Rect where
  left : Int
  top : Int
  right : Int
  bottom : Int
deriving Repr, DecidableEq

/-- The overlay native window created by create_black_window: its handle,
its position and size, its visibility, the handle it was last placed
behind in z-order (none before any SetWindowPos call), and a ghost copy
of the monitor rect it was created from. -/
structure OverlayWindow where
  hwnd : Nat
  x : Int
  y : Int
  width : Int
  height : Int
  visible : Bool
  behind : Option Nat
  createdRect : Rect
deriving Repr, DecidableEq

/-- One tick's sample of the external environment, as read by the loop body
in main: the foreground window handle, its title, its minimized flag, and
the result the monitor-rect lookup would return if activate_black_bars
queries it this tick. -/
structure TickInput where
  fgHwnd : Nat
  fgTitle : String
  fgMinimized : Bool
  monitorRect : Option Rect
deriving Repr, DecidableEq

/-- Program globals plus observable desktop state. -/
structure ProgState where
  blackWindowHwnd : Option Nat
  blackBarsActive : Bool
  overlay : Option OverlayWindow
  taskbarVisible : Bool
  startVisible : Bool
  taskbarPresent : Bool
  startPresent : Bool
  focusedHwnd : Option Nat
  nextHwnd : Nat
  createCount : Nat
  lastTarget : Option Nat
  log : List String
deriving Repr, DecidableEq

/-- LEAGUE_WINDOW_TITLE from src/main.py. -/
def LEAGUE_WINDOW_TITLE : String := "League of Legends (TM) Client"

/-- POLL_INTERVAL_MS from src/main.py. -/
def POLL_INTERVAL_MS : Nat := 100

def SWP_NOSIZE : Nat := 1
def SWP_NOMOVE : Nat := 2
def SWP_NOACTIVATE : Nat := 16
def SWP_SHOWWINDOW : Nat := 64

/-- Python truthiness of the black_window_hwnd global: None and 0 are falsy. -/
def pyTruthyHwnd : Option Nat → Bool
  | none => false
  | some h => h != 0

/-- is_league_game_window from src/main.py: the foreground window is the
target exactly when its title equals LEAGUE_WINDOW_TITLE. -/
def is_league_game_window (inp : TickInput) : Bool :=
  inp.fgTitle == LEAGUE_WINDOW_TITLE

/-- Win32 SetWindowPos, restricted to the one window the program owns (the
overlay).  Flags follow the Win32 semantics used by show_black_window:
SWP_NOMOVE (bit 1) keeps x,y; SWP_NOSIZE (bit 0) keeps width,height;
SWP_SHOWWINDOW (bit 6) makes the window visible; without SWP_NOACTIVATE
(bit 4) the window would take input focus.  The insertAfter argument is
recorded as the window the overlay now sits immediately behind. -/
def setWindowPos (s : ProgState) (hwnd insertAfter : Nat) (x y cx cy : Int)
    (flags : Nat) : ProgState :=
  match s.overlay with
  | none => s
  | some ov =>
    if ov.hwnd = hwnd then
      let ov2 : OverlayWindow :=
        { ov with
          x := if flags.testBit 1 then ov.x else x
          y := if flags.testBit 1 then ov.y else y
          width := if flags.testBit 0 then ov.width else cx
          height := if flags.testBit 0 then ov.height else cy
          behind := some insertAfter
          visible := if flags.testBit 6 then true else ov.visible }
      { s with
        overlay := some ov2
        focusedHwnd := if flags.testBit 4 then s.focusedHwnd else some hwnd }
    else s

/-- create_black_window from src/main.py: allocate a fresh handle and create
the overlay at the monitor rect's position and size, initially not visible
(WS_POPUP without WS_VISIBLE).  Returns the handle and the new state. -/
def create_black_window (monitor_rect : Rect) (s : ProgState) : Nat × ProgState :=
  let hwnd := s.nextHwnd
  let ov : OverlayWindow :=
    { hwnd := hwnd
      x := monitor_rect.left
      y := monitor_rect.top
      width := monitor_rect.right - monitor_rect.left
      height := monitor_rect.bottom - monitor_rect.top
      visible := false
      behind := none
      createdRect := monitor_rect }
  (hwnd, { s with
            overlay := some ov
            nextHwnd := s.nextHwnd + 1
            createCount := s.createCount + 1 })

/-- show_black_window from src/main.py: SetWindowPos(hwnd, league_hwnd,
0, 0, 0, 0, SWP_NOMOVE or SWP_NOSIZE or SWP_NOACTIVATE or SWP_SHOWWINDOW). -/
def show_black_window (hwnd league_hwnd : Nat) (s : ProgState) : ProgState :=
  setWindowPos s hwnd league_hwnd 0 0 0 0
    (SWP_NOMOVE ||| SWP_NOSIZE ||| SWP_NOACTIVATE ||| SWP_SHOWWINDOW)

/-- hide_black_window from src/main.py: ShowWindow(hwnd, SW_HIDE), with any
exception (stale handle) swallowed, so a non-matching handle is a no-op. -/
def hide_black_window (hwnd : Nat) (s : ProgState) : ProgState :=
  match s.overlay with
  | none => s
  | some ov =>
    if ov.hwnd = hwnd then { s with overlay := some { ov with visible := false } }
    else s

/-- destroy_black_window from src/main.py: DestroyWindow(hwnd), exceptions
swallowed. -/
def destroy_black_window (hwnd : Nat) (s : ProgState) : ProgState :=
  match s.overlay with
  | none => s
  | some ov => if ov.hwnd = hwnd then { s with overlay := none } else s

/-- hide_taskbar from src/main.py: hide the taskbar if FindWindow locates
it; then hide the Start button if find_start_button locates it.
find_start_button first requires the taskbar to be found and then looks up
the Start button, so the Start button is hidden only when both are
locatable. -/
def hide_taskbar (s : ProgState) : ProgState :=
  let s1 := if s.taskbarPresent then { s with taskbarVisible := false } else s
  if s1.taskbarPresent && s1.startPresent then { s1 with startVisible := false }
  else s1

/-- show_taskbar from src/main.py: symmetric to hide_taskbar with SW_SHOW. -/
def show_taskbar (s : ProgState) : ProgState :=
  let s1 := if s.taskbarPresent then { s with taskbarVisible := true } else s
  if s1.taskbarPresent && s1.startPresent then { s1 with startVisible := true }
  else s1

/-- The warning printed by activate_black_bars when get_monitor_rect
returns None. -/
def warnNoMonitor : String := "Warning: Could not determine monitor for League window"

/-- The status line printed on successful activation. -/
def activationMsg (r : Rect) : String :=
  "Black bars activated on monitor: (" ++ toString r.left ++ ", " ++
    toString r.top ++ ", " ++ toString r.right ++ ", " ++ toString r.bottom ++ ")"

/-- activate_black_bars from src/main.py.  The monitor-rect lookup result
for league_hwnd is passed in as monitor_rect (it is an external query).
On None: print a warning and return with every global unchanged.
Otherwise: create the overlay if black_window_hwnd is None, then show it
behind league_hwnd, hide the taskbar, and set black_bars_active. -/
def activate_black_bars (league_hwnd : Nat) (monitor_rect : Option Rect)
    (s : ProgState) : ProgState :=
  match monitor_rect with
  | none => { s with log := warnNoMonitor :: s.log }
  | some rect =>
    let p : Nat × ProgState :=
      match s.blackWindowHwnd with
      | none =>
        let q := create_black_window rect s
        (q.1, { q.2 with blackWindowHwnd := some q.1 })
      | some h => (h, s)
    let s2 := show_black_window p.1 league_hwnd p.2
    let s3 := hide_taskbar s2
    { s3 with
      blackBarsActive := true
      lastTarget := some league_hwnd
      log := activationMsg rect :: s3.log }

/-- deactivate_black_bars from src/main.py: hide the overlay if
black_window_hwnd is truthy, show the taskbar, clear black_bars_active. -/
def deactivate_black_bars (s : ProgState) : ProgState :=
  let s1 :=
    match s.blackWindowHwnd with
    | none => s
    | some h => if h != 0 then hide_black_window h s else s
  let s2 := show_taskbar s1
  { s2 with blackBarsActive := false, log := "Black bars deactivated" :: s2.log }

/-- cleanup from src/main.py: always show the taskbar; if black_window_hwnd
is truthy, destroy the overlay and set black_window_hwnd to None.
Note that black_bars_active is NOT reset. -/
def cleanup (s : ProgState) : ProgState :=
  let s1 := { s with log := "Cleaning up..." :: s.log }
  let s2 := show_taskbar s1
  let s3 :=
    match s2.blackWindowHwnd with
    | none => s2
    | some h =>
      if h != 0 then
        { destroy_black_window h s2 with blackWindowHwnd := none }
      else s2
  { s3 with log := "Cleanup complete" :: s3.log }

/-- signal_handler from src/main.py: run cleanup, then sys.exit(0).
Returns the state after the handler body and the requested exit code. -/
def signal_handler (s : ProgState) : ProgState × Nat := (cleanup s, 0)

/-- One iteration of the while-True loop body in main: sample the
foreground window; if it is the League window and not minimized, activate
when not already active; otherwise deactivate when active. -/
def tick (s : ProgState) (inp : TickInput) : ProgState :=
  if is_league_game_window inp && !inp.fgMinimized then
    if !s.blackBarsActive then activate_black_bars inp.fgHwnd inp.monitorRect s
    else s
  else
    if s.blackBarsActive then deactivate_black_bars s else s

/-- Run the polling loop over a finite list of tick inputs. -/
def run (s : ProgState) (inputs : List TickInput) : ProgState :=
  inputs.foldl tick s

/-- The state at process start: both globals at their module-level initial
values, no overlay, taskbar and Start button visible.  tp and sp say
whether the taskbar and Start button are locatable in this environment. -/
def initState (tp sp : Bool) : ProgState :=
  { blackWindowHwnd := none
    blackBarsActive := false
    overlay := none
    taskbarVisible := true
    startVisible := true
    taskbarPresent := tp
    startPresent := sp
    focusedHwnd := none
    nextHwnd := 1
    createCount := 0
    lastTarget := none
    log := [] }

/-- Exit of main via a termination signal delivered after the given ticks:
the handler runs cleanup and calls sys.exit(0); SystemExit is not caught
by the except-Exception clause, so the finally clause runs cleanup a
second time, and the process exits with the handler's code. -/
def mainExitSignal (tp sp : Bool) (inputs : List TickInput) : ProgState × Nat :=
  let p := signal_handler (run (initState tp sp) inputs)
  (cleanup p.1, p.2)

/-- Exit of main via an unhandled exception in the loop after the given
ticks: the except clause prints the error, then the finally clause runs
cleanup. -/
def mainExitError (tp sp : Bool) (inputs : List TickInput) (msg : String) :
    ProgState :=
  let s := run (initState tp sp) inputs
  cleanup { s with log := ("Error: " ++ msg) :: s.log }

/-- The observable program/desktop state: everything except the log. -/
def observables (s : ProgState) :
    Option Nat × Bool × Option OverlayWindow × Bool × Bool × Bool × Bool ×
      Option Nat × Nat × Nat × Option Nat :=
  (s.blackWindowHwnd, s.blackBarsActive, s.overlay, s.taskbarVisible,
   s.startVisible, s.taskbarPresent, s.startPresent, s.focusedHwnd,
   s.nextHwnd, s.createCount, s.lastTarget)

/-! ## Invariants -/

/-- The overlay still has the position and size it was created with
(create_black_window sets them from the monitor rect, and the only later
SetWindowPos call passes SWP_NOMOVE and SWP_NOSIZE). -/
def SizedToCreation (ov : OverlayWindow) : Prop :=
  ov.x = ov.createdRect.left ∧ ov.y = ov.createdRect.top ∧
  ov.width = ov.createdRect.right - ov.createdRect.left ∧
  ov.height = ov.createdRect.bottom - ov.createdRect.top

/-- Structural consistency of the globals: the taskbar is locatable, handles
are allocated from 1 upwards, and black_window_hwnd and the overlay native
window exist together, agree on the handle, and have been created exactly
once (or not at all). -/
def Linked (s : ProgState) : Prop :=
  s.taskbarPresent = true ∧ 1 ≤ s.nextHwnd ∧
  ((s.blackWindowHwnd = none ∧ s.overlay = none ∧ s.createCount = 0) ∨
   (∃ h ov, s.blackWindowHwnd = some h ∧ s.overlay = some ov ∧
      ov.hwnd = h ∧ h ≠ 0 ∧ SizedToCreation ov ∧ s.createCount = 1))

/-- The desktop-chrome part of the state invariant: when active, the
overlay is shown, sits immediately behind the target handle of the most
recent activation, and the taskbar is hidden; when inactive, the overlay
(if created) is hidden and the taskbar is shown. -/
def ChromeInv (s : ProgState) : Prop :=
  (s.blackBarsActive = true →
    s.taskbarVisible = false ∧
    ∃ ov, s.overlay = some ov ∧ ov.visible = true ∧
      ov.behind = s.lastTarget ∧ s.lastTarget ≠ none) ∧
  (s.blackBarsActive = false →
    s.taskbarVisible = true ∧ ∀ ov, s.overlay = some ov → ov.visible = false)

/-- The full per-tick state invariant. -/
def StateInv (s : ProgState) : Prop := Linked s ∧ ChromeInv s

/-- What every exit path must leave behind: taskbar shown, overlay
destroyed, overlay reference cleared. -/
def Restored (s : ProgState) : Prop :=
  s.taskbarVisible = true ∧ s.overlay = none ∧ s.blackWindowHwnd = none

/-! ## Helper lemmas about the primitive operations -/

theorem show_taskbar_fields (s : ProgState) :
    (show_taskbar s).blackWindowHwnd = s.blackWindowHwnd ∧
    (show_taskbar s).blackBarsActive = s.blackBarsActive ∧
    (show_taskbar s).overlay = s.overlay ∧
    (show_taskbar s).taskbarPresent = s.taskbarPresent ∧
    (show_taskbar s).startPresent = s.startPresent ∧
    (show_taskbar s).focusedHwnd = s.focusedHwnd ∧
    (show_taskbar s).nextHwnd = s.nextHwnd ∧
    (show_taskbar s).createCount = s.createCount ∧
    (show_taskbar s).lastTarget = s.lastTarget ∧
    (show_taskbar s).log = s.log := by
  unfold show_taskbar
  dsimp only
  split <;> split <;> simp

theorem show_taskbar_visible (s : ProgState) (h : s.taskbarPresent = true) :
    (show_taskbar s).taskbarVisible = true := by
  unfold show_taskbar
  dsimp only
  rw [h]
  split <;> split <;> simp_all

theorem hide_taskbar_fields (s : ProgState) :
    (hide_taskbar s).blackWindowHwnd = s.blackWindowHwnd ∧
    (hide_taskbar s).blackBarsActive = s.blackBarsActive ∧
    (hide_taskbar s).overlay = s.overlay ∧
    (hide_taskbar s).taskbarPresent = s.taskbarPresent ∧
    (hide_taskbar s).startPresent = s.startPresent ∧
    (hide_taskbar s).focusedHwnd = s.focusedHwnd ∧
    (hide_taskbar s).nextHwnd = s.nextHwnd ∧
    (hide_taskbar s).createCount = s.createCount ∧
    (hide_taskbar s).lastTarget = s.lastTarget ∧
    (hide_taskbar s).log = s.log := by
  unfold hide_taskbar
  dsimp only
  split <;> split <;> simp

theorem hide_taskbar_visible (s : ProgState) (h : s.taskbarPresent = true) :
    (hide_taskbar s).taskbarVisible = false := by
  unfold hide_taskbar
  dsimp only
  rw [h]
  split <;> split <;> simp_all

theorem show_black_window_spec (s : ProgState) (ov : OverlayWindow)
    (league : Nat) (h : s.overlay = some ov) :
    show_black_window ov.hwnd league s =
      { s with overlay := some { ov with visible := true, behind := some league } } := by
  have hf : SWP_NOMOVE ||| SWP_NOSIZE ||| SWP_NOACTIVATE ||| SWP_SHOWWINDOW = 83 := by
    decide
  have h0 : Nat.testBit 83 0 = true := by decide
  have h1 : Nat.testBit 83 1 = true := by decide
  have h4 : Nat.testBit 83 4 = true := by decide
  have h6 : Nat.testBit 83 6 = true := by decide
  unfold show_black_window setWindowPos
  rw [hf, h]
  simp [h0, h1, h4, h6]

theorem setWindowPos_fields (s : ProgState) (hwnd ia : Nat) (x y cx cy : Int)
    (flags : Nat) :
    (setWindowPos s hwnd ia x y cx cy flags).blackWindowHwnd = s.blackWindowHwnd ∧
    (setWindowPos s hwnd ia x y cx cy flags).blackBarsActive = s.blackBarsActive ∧
    (setWindowPos s hwnd ia x y cx cy flags).taskbarVisible = s.taskbarVisible ∧
    (setWindowPos s hwnd ia x y cx cy flags).startVisible = s.startVisible ∧
    (setWindowPos s hwnd ia x y cx cy flags).taskbarPresent = s.taskbarPresent ∧
    (setWindowPos s hwnd ia x y cx cy flags).startPresent = s.startPresent ∧
    (setWindowPos s hwnd ia x y cx cy flags).nextHwnd = s.nextHwnd ∧
    (setWindowPos s hwnd ia x y cx cy flags).createCount = s.createCount ∧
    (setWindowPos s hwnd ia x y cx cy flags).lastTarget = s.lastTarget ∧
    (setWindowPos s hwnd ia x y cx cy flags).log = s.log := by
  unfold setWindowPos
  split
  · simp
  · split <;> simp

theorem hide_taskbar_eq (s : ProgState) (h : s.taskbarPresent = true) :
    hide_taskbar s =
      { s with
        taskbarVisible := false
        startVisible := if s.startPresent = true then false else s.startVisible } := by
  unfold hide_taskbar
  dsimp only
  rw [h]
  split <;> split <;> simp_all

theorem show_taskbar_eq (s : ProgState) (h : s.taskbarPresent = true) :
    show_taskbar s =
      { s with
        taskbarVisible := true
        startVisible := if s.startPresent = true then true else s.startVisible } := by
  unfold show_taskbar
  dsimp only
  rw [h]
  split <;> split <;> simp_all

theorem hide_taskbar_absent (s : ProgState) (h : s.taskbarPresent = false) :
    hide_taskbar s = s := by
  unfold hide_taskbar
  dsimp only
  simp [h]

theorem show_taskbar_absent (s : ProgState) (h : s.taskbarPresent = false) :
    show_taskbar s = s := by
  unfold show_taskbar
  dsimp only
  simp [h]

theorem activate_none_eq (league : Nat) (s : ProgState) :
    activate_black_bars league none s = { s with log := warnNoMonitor :: s.log } :=
  rfl

theorem activate_active (league : Nat) (r : Rect) (s : ProgState) :
    (activate_black_bars league (some r) s).blackBarsActive = true :=
  rfl

theorem deactivate_active (s : ProgState) :
    (deactivate_black_bars s).blackBarsActive = false :=
  rfl

theorem stateInv_log (s : ProgState) (l : List String) (h : StateInv s) :
    StateInv { s with log := l } :=
  h

theorem activate_eq_fresh (league : Nat) (r : Rect) (s : ProgState)
    (hbw : s.blackWindowHwnd = none) (htp : s.taskbarPresent = true) :
    activate_black_bars league (some r) s =
      { s with
        blackWindowHwnd := some s.nextHwnd
        overlay := some
          { hwnd := s.nextHwnd, x := r.left, y := r.top,
            width := r.right - r.left, height := r.bottom - r.top,
            visible := true, behind := some league, createdRect := r }
        taskbarVisible := false
        startVisible := if s.startPresent = true then false else s.startVisible
        nextHwnd := s.nextHwnd + 1
        createCount := s.createCount + 1
        blackBarsActive := true
        lastTarget := some league
        log := activationMsg r :: s.log } := by
  have hf : SWP_NOMOVE ||| SWP_NOSIZE ||| SWP_NOACTIVATE ||| SWP_SHOWWINDOW = 83 := by
    decide
  have h0 : Nat.testBit 83 0 = true := by decide
  have h1 : Nat.testBit 83 1 = true := by decide
  have h4 : Nat.testBit 83 4 = true := by decide
  have h6 : Nat.testBit 83 6 = true := by decide
  by_cases hsp : s.startPresent = true <;>
    simp [activate_black_bars, create_black_window, show_black_window,
      setWindowPos, hide_taskbar, hbw, hf, h0, h1, h4, h6, htp, hsp]

theorem activate_eq_reuse (league : Nat) (r : Rect) (s : ProgState) (h : Nat)
    (ov : OverlayWindow) (hbw : s.blackWindowHwnd = some h)
    (hov : s.overlay = some ov) (hh : ov.hwnd = h) (htp : s.taskbarPresent = true) :
    activate_black_bars league (some r) s =
      { s with
        overlay := some { ov with visible := true, behind := some league }
        taskbarVisible := false
        startVisible := if s.startPresent = true then false else s.startVisible
        blackBarsActive := true
        lastTarget := some league
        log := activationMsg r :: s.log } := by
  have hf : SWP_NOMOVE ||| SWP_NOSIZE ||| SWP_NOACTIVATE ||| SWP_SHOWWINDOW = 83 := by
    decide
  have h0 : Nat.testBit 83 0 = true := by decide
  have h1 : Nat.testBit 83 1 = true := by decide
  have h4 : Nat.testBit 83 4 = true := by decide
  have h6 : Nat.testBit 83 6 = true := by decide
  by_cases hsp : s.startPresent = true <;>
    simp [activate_black_bars, create_black_window, show_black_window,
      setWindowPos, hide_taskbar, hbw, hov, hf, h0, h1, h4, h6, htp, hh, hsp]

theorem deactivate_eq_some (s : ProgState) (h : Nat) (ov : OverlayWindow)
    (hbw : s.blackWindowHwnd = some h) (hov : s.overlay = some ov)
    (hh : ov.hwnd = h) (hnz : h ≠ 0) (htp : s.taskbarPresent = true) :
    deactivate_black_bars s =
      { s with
        overlay := some { ov with visible := false }
        taskbarVisible := true
        startVisible := if s.startPresent = true then true else s.startVisible
        blackBarsActive := false
        log := "Black bars deactivated" :: s.log } := by
  have hz : (h != 0) = true := by simpa using hnz
  by_cases hsp : s.startPresent = true <;>
    simp [deactivate_black_bars, hide_black_window, show_taskbar, hbw, hov,
      hz, hh, htp, hsp]

theorem deactivate_eq_none (s : ProgState) (hbw : s.blackWindowHwnd = none)
    (htp : s.taskbarPresent = true) :
    deactivate_black_bars s =
      { s with
        taskbarVisible := true
        startVisible := if s.startPresent = true then true else s.startVisible
        blackBarsActive := false
        log := "Black bars deactivated" :: s.log } := by
  by_cases hsp : s.startPresent = true <;>
    simp [deactivate_black_bars, show_taskbar, hbw, htp, hsp]

theorem cleanup_eq_some (s : ProgState) (h : Nat) (ov : OverlayWindow)
    (hbw : s.blackWindowHwnd = some h) (hov : s.overlay = some ov)
    (hh : ov.hwnd = h) (hnz : h ≠ 0) (htp : s.taskbarPresent = true) :
    cleanup s =
      { s with
        taskbarVisible := true
        startVisible := if s.startPresent = true then true else s.startVisible
        overlay := none
        blackWindowHwnd := none
        log := "Cleanup complete" :: "Cleaning up..." :: s.log } := by
  have hz : (h != 0) = true := by simpa using hnz
  by_cases hsp : s.startPresent = true <;>
    simp [cleanup, destroy_black_window, show_taskbar, hbw, hov, hz, hh,
      htp, hsp]

theorem cleanup_eq_none (s : ProgState) (hbw : s.blackWindowHwnd = none)
    (htp : s.taskbarPresent = true) :
    cleanup s =
      { s with
        taskbarVisible := true
        startVisible := if s.startPresent = true then true else s.startVisible
        log := "Cleanup complete" :: "Cleaning up..." :: s.log } := by
  by_cases hsp : s.startPresent = true <;>
    simp [cleanup, show_taskbar, hbw, htp, hsp]

theorem hide_black_window_bw (hwnd : Nat) (s : ProgState) :
    (hide_black_window hwnd s).blackWindowHwnd = s.blackWindowHwnd := by
  unfold hide_black_window
  split
  · rfl
  · split <;> rfl

theorem activate_some_bw (league : Nat) (r : Rect) (s : ProgState) (h : Nat)
    (hh : s.blackWindowHwnd = some h) :
    (activate_black_bars league (some r) s).blackWindowHwnd = some h := by
  unfold activate_black_bars
  dsimp only
  rw [hh]
  dsimp only
  unfold show_black_window
  rw [(hide_taskbar_fields _).1, (setWindowPos_fields _ _ _ _ _ _ _ _).1]
  exact hh

theorem deactivate_bw (s : ProgState) :
    (deactivate_black_bars s).blackWindowHwnd = s.blackWindowHwnd := by
  unfold deactivate_black_bars
  dsimp only
  rw [(show_taskbar_fields _).1]
  split
  · rfl
  · split
    · rw [hide_black_window_bw]
    · rfl

theorem tick_bw_stable (s : ProgState) (i : TickInput) (h : Nat)
    (hh : s.blackWindowHwnd = some h) :
    (tick s i).blackWindowHwnd = some h := by
  unfold tick
  split
  · split
    · cases hrv : i.monitorRect with
      | none => exact hh
      | some r => exact activate_some_bw i.fgHwnd r s h hh
    · exact hh
  · split
    · rw [deactivate_bw]; exact hh
    · exact hh

theorem run_bw_stable (l : List TickInput) (s : ProgState) (h : Nat)
    (hh : s.blackWindowHwnd = some h) :
    (run s l).blackWindowHwnd = some h := by
  induction l generalizing s with
  | nil => exact hh
  | cons a t ih =>
    simp only [run, List.foldl_cons]
    exact ih (tick s a) (tick_bw_stable s a h hh)

theorem stateInv_activate (league : Nat) (r : Rect) (s : ProgState)
    (hl : Linked s) : StateInv (activate_black_bars league (some r) s) := by
  obtain ⟨htp, hnx, hlink⟩ := hl
  rcases hlink with ⟨hbw, hov, hcc⟩ | ⟨h, ov, hbw, hov, hh, hnz, hsz, hcc⟩
  · rw [activate_eq_fresh league r s hbw htp]
    unfold StateInv Linked ChromeInv SizedToCreation
    simp [htp, hcc]
    omega
  · rw [activate_eq_reuse league r s h ov hbw hov hh htp]
    unfold StateInv Linked ChromeInv SizedToCreation
    simp [htp, hbw, hh, hnz, hcc, hsz.1, hsz.2.1, hsz.2.2.1, hsz.2.2.2]
    omega

theorem stateInv_deactivate (s : ProgState) (hl : Linked s) :
    StateInv (deactivate_black_bars s) := by
  obtain ⟨htp, hnx, hlink⟩ := hl
  rcases hlink with ⟨hbw, hov, hcc⟩ | ⟨h, ov, hbw, hov, hh, hnz, hsz, hcc⟩
  · rw [deactivate_eq_none s hbw htp]
    unfold StateInv Linked ChromeInv
    simp [htp, hbw, hov, hcc]
    omega
  · rw [deactivate_eq_some s h ov hbw hov hh hnz htp]
    unfold StateInv Linked ChromeInv SizedToCreation
    simp [htp, hbw, hh, hnz, hcc, hsz.1, hsz.2.1, hsz.2.2.1, hsz.2.2.2]
    omega

theorem stateInv_tick (s : ProgState) (i : TickInput) (h : StateInv s) :
    StateInv (tick s i) := by
  unfold tick
  split
  · split
    · cases hrv : i.monitorRect with
      | none =>
        rw [activate_none_eq]
        exact stateInv_log s _ h
      | some r => exact stateInv_activate i.fgHwnd r s h.1
    · exact h
  · split
    · exact stateInv_deactivate s h.1
    · exact h

theorem stateInv_init (sp : Bool) : StateInv (initState true sp) := by
  unfold StateInv Linked ChromeInv initState
  simp

theorem stateInv_run (l : List TickInput) (s : ProgState) (h : StateInv s) :
    StateInv (run s l) := by
  induction l generalizing s with
  | nil => exact h
  | cons a t ih =>
    simp only [run, List.foldl_cons]
    exact ih (tick s a) (stateInv_tick s a h)

theorem cleanup_restored (s : ProgState) (hl : Linked s) :
    Restored (cleanup s) ∧ (cleanup s).taskbarPresent = true := by
  obtain ⟨htp, hnx, hlink⟩ := hl
  rcases hlink with ⟨hbw, hov, hcc⟩ | ⟨h, ov, hbw, hov, hh, hnz, hsz, hcc⟩
  · rw [cleanup_eq_none s hbw htp]
    exact ⟨⟨rfl, hov, hbw⟩, htp⟩
  · rw [cleanup_eq_some s h ov hbw hov hh hnz htp]
    exact ⟨⟨rfl, rfl, rfl⟩, htp⟩

theorem cleanup_of_cleared (s : ProgState) (h1 : s.blackWindowHwnd = none)
    (htp : s.taskbarPresent = true) :
    (cleanup s).taskbarVisible = true ∧ (cleanup s).overlay = s.overlay ∧
    (cleanup s).blackWindowHwnd = none := by
  rw [cleanup_eq_none s h1 htp]
  exact ⟨rfl, rfl, h1⟩

theorem tick_active_tracks (s : ProgState) (i : TickInput)
    (hr : i.monitorRect ≠ none) :
    (tick s i).blackBarsActive = (is_league_game_window i && !i.fgMinimized) := by
  unfold tick
  split
  · rename_i hc
    split
    · cases hrv : i.monitorRect with
      | none => exact absurd hrv hr
      | some r => rw [activate_active, hc]
    · rename_i hna
      rw [hc]
      simpa using hna
  · rename_i hc
    simp only [Bool.not_eq_true] at hc
    split
    · rw [deactivate_active, hc]
    · rename_i hna
      rw [hc]
      simpa using hna

/-! ## Concrete sample inputs for counterexamples and witnesses -/

/-- The monitor rect used in the spec's Scenario A. -/
def sampleRect : Rect := { left := 0, top := 0, right := 1920, bottom := 1080 }

/-- A tick where the League window is foreground, unminimized, and the
monitor lookup succeeds. -/
def actInput : TickInput :=
  { fgHwnd := 7, fgTitle := LEAGUE_WINDOW_TITLE, fgMinimized := false,
    monitorRect := some sampleRect }

/-- A tick where the League window is foreground and unminimized but the
monitor-rect lookup fails. -/
def noRectInput : TickInput :=
  { fgHwnd := 5, fgTitle := LEAGUE_WINDOW_TITLE, fgMinimized := false,
    monitorRect := none }

/-- A tick where an unrelated window is foreground. -/
def idleInput : TickInput :=
  { fgHwnd := 9, fgTitle := "Notepad", fgMinimized := false,
    monitorRect := some sampleRect }

/-! ## Claims -/

/-- Claim C1, counterexample to the claim as stated: on a tick whose sample
is (is_target = true, is_minimized = false) but where the monitor-rect
lookup returns None, the Activation State after the tick is false, not
is_target AND NOT is_minimized = true.  The lookup failure makes
activate_black_bars return early without setting black_bars_active. -/
theorem claim1_counterexample :
    (is_league_game_window noRectInput && !noRectInput.fgMinimized) = true ∧
    (run (initState true true) [noRectInput]).blackBarsActive = false := by
  constructor <;> decide

/-- Claim C1, amended: for every sequence of per-tick samples fed to the
polling loop in which the monitor-rect lookup succeeds on every tick,
after each tick black_bars_active equals is_target AND NOT is_minimized
evaluated on that tick's sample. -/
theorem claim1_theorem (tp sp : Bool) (l : List TickInput) (j : Nat)
    (hj : j < l.length) (hall : ∀ i ∈ l, i.monitorRect ≠ none) :
    (run (initState tp sp) (l.take (j + 1))).blackBarsActive =
      (is_league_game_window (l.get ⟨j, hj⟩) && !(l.get ⟨j, hj⟩).fgMinimized) := by
  have h1 : l.take (j + 1) = l.take j ++ [l.get ⟨j, hj⟩] := by
    rw [List.take_succ, List.getElem?_eq_getElem hj]
    rfl
  rw [h1]
  show (List.foldl tick (initState tp sp) (l.take j ++ [l.get ⟨j, hj⟩])).blackBarsActive = _
  rw [List.foldl_append]
  exact tick_active_tracks _ _ (hall _ (List.get_mem l j hj))

/-- Claim C1, witness for the amended theorem at a concrete one-tick run. -/
theorem claim1_witness :
    (run (initState true true) ([actInput].take 1)).blackBarsActive =
      (is_league_game_window ([actInput].get ⟨0, Nat.one_pos⟩) &&
        !([actInput].get ⟨0, Nat.one_pos⟩).fgMinimized) :=
  claim1_theorem true true [actInput] 0 Nat.one_pos (by decide)

/-- Claim C2, counterexample to the claim as stated: run one activating
tick (Scenario A) and then take the cleanup exit path.  Afterwards the
Activation State variable is still true (cleanup never resets
black_bars_active) while the task bar is shown and the overlay has been
destroyed, so the claimed invariant does not hold after this exit path. -/
theorem claim2_counterexample :
    (cleanup (run (initState true true) [actInput])).blackBarsActive = true ∧
    (cleanup (run (initState true true) [actInput])).taskbarVisible = true ∧
    (cleanup (run (initState true true) [actInput])).overlay = none := by
  refine ⟨?_, ?_, ?_⟩ <;> decide

/-- Claim C2, amended: after every tick (in an environment where the task
bar is locatable), whenever active = false the overlay (if created) is
hidden and the task bar is shown, and whenever active = true the overlay
is shown, placed immediately behind the target handle of the most recent
activation, positioned and sized to the monitor rect captured when the
overlay was created, and the task bar is hidden.  After every exit path
(cleanup from the finally clause, the signal handler, or an unhandled
loop error) the task bar is shown, the overlay is destroyed and the
overlay reference is cleared — but the active flag itself is not reset
by cleanup. -/
theorem claim2_theorem (sp : Bool) (inputs : List TickInput) (msg : String) :
    StateInv (run (initState true sp) inputs) ∧
    Restored (cleanup (run (initState true sp) inputs)) ∧
    Restored (mainExitSignal true sp inputs).1 ∧
    Restored (mainExitError true sp inputs msg) := by
  have hinv : StateInv (run (initState true sp) inputs) :=
    stateInv_run inputs (initState true sp) (stateInv_init sp)
  have hcl := cleanup_restored _ hinv.1
  refine ⟨hinv, hcl.1, ?_, ?_⟩
  · show Restored (cleanup (cleanup (run (initState true sp) inputs)))
    have h2 := cleanup_of_cleared (cleanup (run (initState true sp) inputs))
      hcl.1.2.2 hcl.2
    exact ⟨h2.1, h2.2.1.trans hcl.1.2.1, h2.2.2⟩
  · exact (cleanup_restored
      { run (initState true sp) inputs with
        log := ("Error: " ++ msg) :: (run (initState true sp) inputs).log }
      hinv.1).1

/-- Claim C3: black_window_hwnd is None at process start; over any run of
the polling loop create_black_window is called at most once; once the
handle is set it is identity-stable across any further ticks; and final
cleanup clears it back to None. -/
theorem claim3_theorem (sp : Bool) (inputs : List TickInput) :
    (initState true sp).blackWindowHwnd = none ∧
    (run (initState true sp) inputs).createCount ≤ 1 ∧
    (∀ (h : Nat) (more : List TickInput),
      (run (initState true sp) inputs).blackWindowHwnd = some h →
      (run (run (initState true sp) inputs) more).blackWindowHwnd = some h) ∧
    (cleanup (run (initState true sp) inputs)).blackWindowHwnd = none := by
  have hinv : StateInv (run (initState true sp) inputs) :=
    stateInv_run inputs (initState true sp) (stateInv_init sp)
  refine ⟨rfl, ?_, ?_, (cleanup_restored _ hinv.1).1.2.2⟩
  · rcases hinv.1.2.2 with ⟨_, _, hcc⟩ | ⟨_, _, _, _, _, _, _, hcc⟩ <;> omega
  · intro h more hh
    exact run_bw_stable more _ h hh

/-- Claim C3, witness: after one activating tick the handle is 1, and it is
unchanged by a further deactivating tick. -/
theorem claim3_witness :
    (run (run (initState true true) [actInput]) [idleInput]).blackWindowHwnd =
      some 1 :=
  (claim3_theorem true [actInput]).2.2.1 1 [idleInput] (by decide)

/-- Claim C4: if the monitor-rect lookup fails on a tick where the target
is foreground and not minimized while black bars are inactive, the tick
changes nothing except printing the warning (so activation stays false,
no overlay is created, and the task bar is untouched), and the state
machine can still activate on the next tick once the lookup succeeds. -/
theorem claim4_theorem (s : ProgState) (i : TickInput)
    (hact : s.blackBarsActive = false) (ht : is_league_game_window i = true)
    (hm : i.fgMinimized = false) (hr : i.monitorRect = none) :
    tick s i = { s with log := warnNoMonitor :: s.log } ∧
    (∀ (i2 : TickInput) (r : Rect), is_league_game_window i2 = true →
      i2.fgMinimized = false → i2.monitorRect = some r →
      (tick (tick s i) i2).blackBarsActive = true) := by
  have h1 : tick s i = { s with log := warnNoMonitor :: s.log } := by
    unfold tick
    rw [ht, hm, hact]
    simp only [Bool.not_false, Bool.and_self, if_true, Bool.not_false]
    rw [hr, activate_none_eq, hact]
  refine ⟨h1, ?_⟩
  intro i2 r ht2 hm2 hr2
  rw [h1]
  unfold tick
  rw [ht2, hm2]
  simp only [Bool.not_false, Bool.and_self, if_true]
  have : ({ s with log := warnNoMonitor :: s.log } : ProgState).blackBarsActive
      = false := hact
  rw [this]
  simp only [Bool.not_false, if_true]
  rw [hr2]
  exact activate_active _ _ _

/-- Claim C4, witness: concrete failed activation from the initial state
followed by a successful one. -/
theorem claim4_witness :
    (tick (tick (initState true true) noRectInput) actInput).blackBarsActive =
      true :=
  (claim4_theorem (initState true true) noRectInput rfl (by decide) rfl
    rfl).2 actInput sampleRect (by decide) rfl rfl

/-- Claim C5: on receipt of an interrupt or terminate signal the process
runs the restoration sequence (task bar shown, overlay destroyed,
reference cleared) and exits with code 0, and the same restoration holds
when the loop exits with an unhandled error through the finally clause. -/
theorem claim5_theorem (sp : Bool) (inputs : List TickInput) (msg : String) :
    (mainExitSignal true sp inputs).2 = 0 ∧
    Restored (mainExitSignal true sp inputs).1 ∧
    Restored (mainExitError true sp inputs msg) := by
  have hinv : StateInv (run (initState true sp) inputs) :=
    stateInv_run inputs (initState true sp) (stateInv_init sp)
  have hcl := cleanup_restored _ hinv.1
  refine ⟨rfl, ?_, ?_⟩
  · show Restored (cleanup (cleanup (run (initState true sp) inputs)))
    have h2 := cleanup_of_cleared (cleanup (run (initState true sp) inputs))
      hcl.1.2.2 hcl.2
    exact ⟨h2.1, h2.2.1.trans hcl.1.2.1, h2.2.2⟩
  · exact (cleanup_restored
      { run (initState true sp) inputs with
        log := ("Error: " ++ msg) :: (run (initState true sp) inputs).log }
      hinv.1).1

/-- Claim C6: deactivate_black_bars is idempotent — from every starting
state, running it twice yields the same observable state (activation flag,
overlay, task bar and Start-button visibility, globals) as running it
once; only the printed log differs. -/
theorem claim6_theorem (s : ProgState) :
    observables (deactivate_black_bars (deactivate_black_bars s)) =
      observables (deactivate_black_bars s) := by
  rcases hbw : s.blackWindowHwnd with _ | h
  · by_cases htp : s.taskbarPresent = true <;>
      by_cases hsp : s.startPresent = true <;>
        simp [deactivate_black_bars, hide_black_window, show_taskbar,
          observables, hbw, htp, hsp]
  · by_cases hz : h = 0
    · by_cases htp : s.taskbarPresent = true <;>
        by_cases hsp : s.startPresent = true <;>
          simp [deactivate_black_bars, hide_black_window, show_taskbar,
            observables, hbw, hz, htp, hsp]
    · rcases hov : s.overlay with _ | ov
      · by_cases htp : s.taskbarPresent = true <;>
          by_cases hsp : s.startPresent = true <;>
            simp [deactivate_black_bars, hide_black_window, show_taskbar,
              observables, hbw, hov, hz, htp, hsp]
      · by_cases hoh : ov.hwnd = h <;>
          by_cases htp : s.taskbarPresent = true <;>
            by_cases hsp : s.startPresent = true <;>
              simp [deactivate_black_bars, hide_black_window, show_taskbar,
                observables, hbw, hov, hz, hoh, htp, hsp]

/-- Claim C7: cleanup is idempotent on the observable state, and when no
overlay was ever created it performs no overlay operation (the overlay
field is untouched, the reference stays None) while still restoring the
task bar. -/
theorem claim7_theorem (s : ProgState) :
    observables (cleanup (cleanup s)) = observables (cleanup s) ∧
    (s.blackWindowHwnd = none →
      (cleanup s).overlay = s.overlay ∧ (cleanup s).blackWindowHwnd = none ∧
      (s.taskbarPresent = true → (cleanup s).taskbarVisible = true)) := by
  constructor
  · rcases hbw : s.blackWindowHwnd with _ | h
    · by_cases htp : s.taskbarPresent = true <;>
        by_cases hsp : s.startPresent = true <;>
          simp [cleanup, destroy_black_window, show_taskbar, observables,
            hbw, htp, hsp]
    · by_cases hz : h = 0
      · by_cases htp : s.taskbarPresent = true <;>
          by_cases hsp : s.startPresent = true <;>
            simp [cleanup, destroy_black_window, show_taskbar, observables,
              hbw, hz, htp, hsp]
      · rcases hov : s.overlay with _ | ov
        · by_cases htp : s.taskbarPresent = true <;>
            by_cases hsp : s.startPresent = true <;>
              simp [cleanup, destroy_black_window, show_taskbar, observables,
                hbw, hov, hz, htp, hsp]
        · by_cases hoh : ov.hwnd = h <;>
            by_cases htp : s.taskbarPresent = true <;>
              by_cases hsp : s.startPresent = true <;>
                simp [cleanup, destroy_black_window, show_taskbar, observables,
                  hbw, hov, hz, hoh, htp, hsp]
  · intro hbw
    by_cases htp : s.taskbarPresent = true <;>
      by_cases hsp : s.startPresent = true <;>
        simp [cleanup, show_taskbar, hbw, htp, hsp]

/-- Claim C7, witness: cleanup from the initial state (no overlay ever
created) restores the task bar. -/
theorem claim7_witness : (cleanup (initState true true)).taskbarVisible = true :=
  ((claim7_theorem (initState true true)).2 rfl).2.2 rfl

/-- Claim C8: show_black_window restacks the overlay immediately behind the
given League window handle and marks it visible, while leaving the
overlay's position and size unchanged and not moving input focus. -/
theorem claim8_theorem (s : ProgState) (ov : OverlayWindow) (league : Nat)
    (hov : s.overlay = some ov) :
    ∃ ov2, (show_black_window ov.hwnd league s).overlay = some ov2 ∧
      ov2.visible = true ∧ ov2.behind = some league ∧
      ov2.x = ov.x ∧ ov2.y = ov.y ∧ ov2.width = ov.width ∧
      ov2.height = ov.height ∧
      (show_black_window ov.hwnd league s).focusedHwnd = s.focusedHwnd := by
  rw [show_black_window_spec s ov league hov]
  exact ⟨_, rfl, rfl, rfl, rfl, rfl, rfl, rfl, rfl⟩

/-- A concrete overlay window for witnesses. -/
def demoOverlay : OverlayWindow :=
  { hwnd := 3, x := 0, y := 0, width := 1920, height := 1080,
    visible := false, behind := none, createdRect := sampleRect }

/-- A concrete state owning demoOverlay. -/
def demoState : ProgState :=
  { initState true true with blackWindowHwnd := some 3, overlay := some demoOverlay }

/-- Claim C8, witness at a concrete state. -/
theorem claim8_witness :
    ∃ ov2, (show_black_window demoOverlay.hwnd 7 demoState).overlay = some ov2 ∧
      ov2.visible = true ∧ ov2.behind = some 7 ∧
      ov2.x = demoOverlay.x ∧ ov2.y = demoOverlay.y ∧
      ov2.width = demoOverlay.width ∧ ov2.height = demoOverlay.height ∧
      (show_black_window demoOverlay.hwnd 7 demoState).focusedHwnd =
        demoState.focusedHwnd :=
  claim8_theorem demoState demoOverlay 7 rfl

/-- Claim C9: task-bar hide and show are best-effort: if the task bar is
not locatable both are exact no-ops; if only the Start button is missing
its visibility is untouched (the bar itself is still toggled); show is
idempotent and safe when the bar is already visible. -/
theorem claim9_theorem (s : ProgState) :
    (s.taskbarPresent = false → hide_taskbar s = s ∧ show_taskbar s = s) ∧
    (s.startPresent = false →
      (hide_taskbar s).startVisible = s.startVisible ∧
      (show_taskbar s).startVisible = s.startVisible) ∧
    show_taskbar (show_taskbar s) = show_taskbar s ∧
    (s.taskbarVisible = true → (show_taskbar s).taskbarVisible = true) := by
  refine ⟨fun htp => ⟨hide_taskbar_absent s htp, show_taskbar_absent s htp⟩,
    ?_, ?_, ?_⟩
  · intro hsp
    constructor <;>
      by_cases htp : s.taskbarPresent = true <;>
        simp [hide_taskbar, show_taskbar, hsp, htp]
  · by_cases htp : s.taskbarPresent = true <;>
      by_cases hsp : s.startPresent = true <;>
        simp [show_taskbar, htp, hsp]
  · intro htb
    by_cases htp : s.taskbarPresent = true <;>
      by_cases hsp : s.startPresent = true <;>
        simp [show_taskbar, htp, hsp, htb]

/-- Claim C9, witness: with neither the task bar nor the launcher
locatable, hide_taskbar is an exact no-op. -/
theorem claim9_witness :
    hide_taskbar (initState false false) = initState false false :=
  ((claim9_theorem (initState false false)).1 rfl).1

/-- Claim C10: when the overlay already exists and the monitor-rect lookup
fails, activate_black_bars is an atomic no-op apart from the warning
print: the existing overlay is not shown, the task bar is not hidden, and
the active flag is not set — every observable field is exactly as it
was. -/
theorem claim10_theorem (s : ProgState) (league : Nat)
    (hbw : s.blackWindowHwnd ≠ none) :
    observables (activate_black_bars league none s) = observables s ∧
    activate_black_bars league none s =
      { s with log := warnNoMonitor :: s.log } :=
  ⟨rfl, rfl⟩

/-- Claim C10, witness at a concrete state with an existing overlay. -/
theorem claim10_witness :
    observables (activate_black_bars 7 none demoState) = observables demoState :=
  (claim10_theorem demoState 7 (by decide)).1
